import Mathlib

/-!
Verification of the 100xSWE job-orchestration service against its design notes.

The TypeScript sources are shallowly embedded. Every external collaborator
call that can reject is represented by an `Except String` value carried in a
`Behavior` record, and `JobProcessor.process`
(src/worker/src/processors/job.processor.ts) becomes a pure function from a
job and a behavior to the list of observable events (progress updates, the
git commit, the pull-request creation, sandbox cleanup) together with its
outcome.  The HTTP handlers (status lookup, chat submission, webhook
signature verification, session authentication) are embedded as pure
functions over their request data and oracles for the libraries they call.
-/

namespace Spec2Proof

/-! ## Data model for the worker pipeline
(src/worker/src/processors/job.processor.ts) -/

/-- The payload of a queued job: `job.data` destructured at the top of
`JobProcessor.process` as `{ repoUrl, task }`. -/
structure JobData where
  repoUrl : String
  task : String
  deriving DecidableEq

/-- A queued job as seen by the worker: an id and its data. -/
structure JobInput where
  id : String
  data : JobData
  deriving DecidableEq

/-- Result of `githubService.ensureFork`: `{ forkUrl, forkOwner }`. -/
structure Fork where
  forkUrl : String
  forkOwner : String
  deriving DecidableEq

/-- Result of `aiService.generateCodeChanges`: file operations, optional
shell commands and an explanation. File operations are opaque strings here;
the pipeline never inspects them. -/
structure Generation where
  fileOperations : List String
  shellCommands : List String
  explanation : String
  deriving DecidableEq

/-- Result of `githubService.createPullRequest`: `{ url, number }`. -/
structure PR where
  url : String
  number : Nat
  deriving DecidableEq

/-- Return value of a successful `JobProcessor.process` run:
`{ success: true, prUrl, prNumber }`. -/
structure ProcessResult where
  success : Bool
  prUrl : String
  prNumber : Nat
  deriving DecidableEq

/-- The observable actions of one `JobProcessor.process` run, in order:
`job.updateProgress(value)` calls, the `gitService.commitAndPush` call (with
the branch and commit message passed to it), the
`githubService.createPullRequest` call (with the title and body passed to
it), and the `sandboxService.cleanup` call for a project id.  The Boolean on
`cleanup` records whether the release itself failed internally (see
`Behavior.cleanupFails`). -/
inductive Event where
  | progress (value : Nat)
  | commitAndPush (branch : String) (message : String)
  | createPullRequest (title : String) (body : String)
  | cleanup (projectId : String) (internalFailure : Bool)
  deriving DecidableEq

/-- One run's behavior of the external collaborators called by
`JobProcessor.process`.  Each field is the outcome of the corresponding
service call (each is called at most once per run).  `branchName` is the
value produced by `generateBranchName()`.

`cleanupFails` — Modelled from the spec: `SandboxService.cleanup`
(src/worker/src/services/sandbox.service.ts is not under src/).  Per the
spec, a failure while releasing the sandbox is logged and never re-thrown
("CleanupError — failure while releasing the sandbox; logged, never masks or
replaces the triggering error") and double cleanup must not error, so the
call is modelled as always returning normally, with this flag recording
whether the release internally failed. -/
structure Behavior where
  ensureFork : Except String Fork
  getOrCreateSandbox : Except String String
  cloneRepository : Except String String
  findRelevantFiles : Except String (List String)
  selectFilesToModify : Except String (List String)
  getFileContents : Except String String
  getFileTree : Except String (List String)
  generateCodeChanges : Except String Generation
  executeFileOperations : Except String Unit
  runShellCommands : Except String Unit
  commitAndPush : Except String Unit
  createPullRequest : Except String PR
  branchName : String
  cleanupFails : Bool

/-- Sequencing of one fallible pipeline step: on rejection the run stops with
the events accumulated so far; on success the continuation receives the
accumulated events and the step's value. -/
def bindE {α β : Type} (acc : List Event) (x : Except String α)
    (k : List Event → α → List Event × Except String β) :
    List Event × Except String β :=
  match x with
  | Except.error e => (acc, Except.error e)
  | Except.ok a => k acc a

/-- The `try` block of `JobProcessor.process` (job.processor.ts lines 39-128):
the twelve stages in source order, each progress checkpoint written at the
start of its stage, shell commands run only when the generation's list is
non-empty, the commit message `feat: <task>`, the pull request opened with
title `task` and body `generation.explanation`, and the success-path cleanup
after `updateProgress(100)`. -/
def processTry (job : JobInput) (b : Behavior) :
    List Event × Except String ProcessResult :=
  bindE [Event.progress 10] b.ensureFork fun acc _fork =>
  bindE (acc ++ [Event.progress 20]) b.getOrCreateSandbox fun acc _sandbox =>
  bindE (acc ++ [Event.progress 30]) b.cloneRepository fun acc _repoPath =>
  bindE (acc ++ [Event.progress 40]) b.findRelevantFiles fun acc _relevantFiles =>
  bindE acc b.selectFilesToModify fun acc _filesToModify =>
  bindE (acc ++ [Event.progress 60]) b.getFileContents fun acc _fileContents =>
  bindE acc b.getFileTree fun acc _allFiles =>
  bindE (acc ++ [Event.progress 70]) b.generateCodeChanges fun acc generation =>
  bindE (acc ++ [Event.progress 80]) b.executeFileOperations fun acc _ =>
  bindE acc
    (if generation.shellCommands.isEmpty then Except.ok () else b.runShellCommands)
    fun acc _ =>
  bindE (acc ++ [Event.progress 90,
      Event.commitAndPush b.branchName ("feat: " ++ job.data.task)])
    b.commitAndPush fun acc _ =>
  bindE (acc ++ [Event.createPullRequest job.data.task generation.explanation])
    b.createPullRequest fun acc pr =>
  (acc ++ [Event.progress 100, Event.cleanup ("job-" ++ job.id) b.cleanupFails],
    Except.ok (ProcessResult.mk true pr.url pr.number))

/-- `JobProcessor.process` with its `catch` block (lines 130-134): on any
stage error, `sandboxService.cleanup(projectId)` is invoked and the original
error is re-thrown. -/
def process (job : JobInput) (b : Behavior) :
    List Event × Except String ProcessResult :=
  match processTry job b with
  | (events, Except.ok r) => (events, Except.ok r)
  | (events, Except.error e) =>
      (events ++ [Event.cleanup ("job-" ++ job.id) b.cleanupFails],
        Except.error e)

/-- Whether an event is the sandbox-release call for the given project id. -/
def isCleanupFor (projectId : String) : Event → Bool
  | Event.progress _ => false
  | Event.commitAndPush _ _ => false
  | Event.createPullRequest _ _ => false
  | Event.cleanup pid _ => pid == projectId

/-- How many times the sandbox-release operation for `projectId` occurs in a
run's event list. -/
def cleanupCount (projectId : String) (events : List Event) : Nat :=
  (events.filter (isCleanupFor projectId)).length

/-- The progress values recorded during a run, in order. -/
def progressValues : List Event → List Nat
  | [] => []
  | Event.progress v :: rest => v :: progressValues rest
  | Event.commitAndPush _ _ :: rest => progressValues rest
  | Event.createPullRequest _ _ :: rest => progressValues rest
  | Event.cleanup _ _ :: rest => progressValues rest

/-- The job's progress after a run: the last recorded value, `0` when none
was recorded (a job starts at progress 0). -/
def lastProgress (events : List Event) : Nat :=
  ((progressValues events).getLast?).getD 0

/-- Job lifecycle states. -/
inductive JobState where
  | waiting
  | active
  | completed
  | failed
  deriving DecidableEq

/-- The job record visible after the worker finishes a run. -/
structure JobRecord where
  id : String
  state : JobState
  progress : Nat
  result : Option ProcessResult
  failureReason : Option String
  deriving DecidableEq

/-- Modelled from the spec: the WorkerPool (the BullMQ worker in
src/unnamed/part_000, whose queue library is external) claims a job, runs
`JobProcessor.process`, records each progress update on the job record, and
on return marks it `completed` with the result, or on throw marks it
`failed` "with the error's message as failureReason". -/
def runJob (job : JobInput) (b : Behavior) : JobRecord :=
  match process job b with
  | (events, Except.ok r) =>
      JobRecord.mk job.id JobState.completed (lastProgress events) (some r) none
  | (events, Except.error e) =>
      JobRecord.mk job.id JobState.failed (lastProgress events) none (some e)

/-- The pipeline stages, in source order. -/
inductive Stage where
  | fork
  | sandbox
  | clone
  | findFiles
  | selectFiles
  | readContext
  | generate
  | applyOps
  | runCommands
  | commit
  | openPR
  deriving DecidableEq

/-- Written from the spec's words, for comparison with the source: the "last
checkpoint reached" before each stage, i.e. the progress value the spec's
failure scenario predicts when that stage throws (§4.4 assigns checkpoints
10, 20, 30, 40, 60, 70, 80, 90 to the stages, and §8's failure scenario
reads the checkpoint as recorded on completing a stage: "if stage Clone
throws, final status is progress: 20 (last checkpoint reached)"). -/
def specCheckpointBefore : Stage → Nat
  | Stage.fork => 0
  | Stage.sandbox => 10
  | Stage.clone => 20
  | Stage.findFiles => 30
  | Stage.selectFiles => 40
  | Stage.readContext => 40
  | Stage.generate => 60
  | Stage.applyOps => 70
  | Stage.runCommands => 80
  | Stage.commit => 80
  | Stage.openPR => 90

/-- The full event list of a successful run. -/
def pipelineEvents (job : JobInput) (b : Behavior) (gen : Generation) :
    List Event :=
  [Event.progress 10, Event.progress 20, Event.progress 30, Event.progress 40,
   Event.progress 60, Event.progress 70, Event.progress 80, Event.progress 90,
   Event.commitAndPush b.branchName ("feat: " ++ job.data.task),
   Event.createPullRequest job.data.task gen.explanation,
   Event.progress 100, Event.cleanup ("job-" ++ job.id) b.cleanupFails]

/-- A concrete job used to evaluate the pipeline. -/
def sampleJob : JobInput :=
  JobInput.mk "42" (JobData.mk "https://github.com/acme/widget" "add a LICENSE file")

/-- A behavior in which every collaborator call succeeds. -/
def okBehavior : Behavior where
  ensureFork := Except.ok (Fork.mk "https://github.com/bot/widget" "bot")
  getOrCreateSandbox := Except.ok "sbx-1"
  cloneRepository := Except.ok "/workspace/widget"
  findRelevantFiles := Except.ok ["README.md"]
  selectFilesToModify := Except.ok ["README.md"]
  getFileContents := Except.ok "file contents"
  getFileTree := Except.ok ["README.md"]
  generateCodeChanges := Except.ok (Generation.mk ["create LICENSE"] [] "adds a LICENSE file")
  executeFileOperations := Except.ok ()
  runShellCommands := Except.ok ()
  commitAndPush := Except.ok ()
  createPullRequest := Except.ok (PR.mk "https://github.com/acme/widget/pull/7" 7)
  branchName := "feature-abc123"
  cleanupFails := false

/-- The same behavior except that `gitService.cloneRepository` rejects. -/
def cloneFailBehavior : Behavior :=
  { okBehavior with cloneRepository := Except.error "clone failed" }

/-! ## GitHub App startup and webhook signature verification
(src/unnamed/part_000, GitHub App module) -/

/-- JavaScript string truthiness for an optional environment variable or
request field: `undefined`/`null` and the empty string are falsy. -/
def truthy : Option String → Bool
  | none => false
  | some s => !(s == "")

/-- The module-level startup check of the GitHub App module
(src/unnamed/part_000 lines 181-187): if `GITHUB_APP_ID`,
`GITHUB_APP_PRIVATE_KEY` or `GITHUB_WEBHOOK_SECRET` is missing, module
initialization throws `Missing GitHub App credentials` and the process never
reaches any request handling. -/
def githubAppStartup (appId privateKey webhookSecret : Option String) :
    Except String Unit :=
  if !truthy appId || !truthy privateKey || !truthy webhookSecret then
    Except.error "Missing GitHub App credentials"
  else
    Except.ok ()

/-- `verifyWebhookSignature` (src/unnamed/part_000 lines 228-238).  The
underlying `app.webhooks.verify` call is an oracle taking the payload string
and the signature; a rejection of that call is caught and turned into
`false`, and a falsy signature short-circuits to `false`.  The embedding is
a total `Bool`-valued function: the source never throws here. -/
def verifyWebhookSignature (payload signature : String)
    (webhooksVerify : String → String → Except String Bool) : Bool :=
  if signature == "" then false
  else
    match webhooksVerify payload signature with
    | Except.ok b => b
    | Except.error _ => false

/-! ## Primary backend HTTP handlers (src/unnamed/part_002) -/

/-- A JSON value as it appears in the two handlers' response bodies. -/
inductive JVal where
  | s (v : String)
  | n (v : Nat)
  | res (v : ProcessResult)
  | null
  deriving DecidableEq

/-- An HTTP response: status code and JSON body given as key-value fields
(a key absent from the list is absent from the serialized body, matching
`JSON.stringify` dropping `undefined` properties). -/
structure HttpResponse where
  status : Nat
  body : List (String × JVal)
  deriving DecidableEq

/-- A BullMQ job as read back by the status route: `job.id`,
`await job.getState()`, `job.progress`, `job.returnvalue` (absent until the
job completed) and `job.failedReason` (absent until the job failed; the
handler never reads it). -/
structure StoredJob where
  id : String
  state : String
  progress : Nat
  returnvalue : Option ProcessResult
  failedReason : Option String
  deriving DecidableEq

/-- The `GET /api/status/:jobId` handler (src/unnamed/part_002 lines 58-75):
`404` with an error body when `chatQueue.getJob` finds nothing, otherwise
`200` with `{ jobId, state, progress, result: job.returnvalue }`. -/
def statusHandler (getJob : String → Option StoredJob) (jobId : String) :
    HttpResponse :=
  match getJob jobId with
  | none => HttpResponse.mk 404 [("error", JVal.s "Job not found")]
  | some job =>
      HttpResponse.mk 200
        ([("jobId", JVal.s job.id), ("state", JVal.s job.state),
          ("progress", JVal.n job.progress)] ++
         (match job.returnvalue with
          | some r => [("result", JVal.res r)]
          | none => []))

/-- The request body of `POST /api/chat`: `{ repoUrl, task }`, each possibly
absent. -/
structure ChatRequestBody where
  repoUrl : Option String
  task : Option String
  deriving DecidableEq

/-- The response of the chat route, as the fields it sets. -/
structure ChatResponse where
  status : Nat
  error : Option String
  message : Option String
  jobId : Option String
  statusUrl : Option String
  deriving DecidableEq

/-- The `POST /api/chat` handler (src/unnamed/part_002 lines 37-55): a falsy
`repoUrl` or `task` yields `400 { error: 'Missing repoUrl or task' }` and no
job is added to the queue; otherwise the job data is enqueued and the
response is `202 { message, jobId, statusUrl }`.  `newId` is the id BullMQ
assigns at enqueue time (modelled from the spec: the id is opaque, assigned
by the external queue library, unique at enqueue time). -/
def chatHandler (body : ChatRequestBody) (queue : List JobData)
    (newId : String) : ChatResponse × List JobData :=
  if !truthy body.repoUrl || !truthy body.task then
    (ChatResponse.mk 400 (some "Missing repoUrl or task") none none none, queue)
  else
    (ChatResponse.mk 202 none (some "Task queued") (some newId)
        (some ("/api/status/" ++ newId)),
      queue ++ [JobData.mk (body.repoUrl.getD "") (body.task.getD "")])

/-! ## Session-token verification (src/unnamed/part_000, jwt manager) -/

/-- JavaScript `s.trim() === ''`: true exactly when every character of `s`
is whitespace (in particular for the empty string). Computed over the
character list so that it evaluates by structural recursion. -/
def isBlank (s : String) : Bool :=
  s.data.all (fun c => c.isWhitespace)

/-- JavaScript `h.startsWith('Bearer ')`, computed over the character
lists. -/
def startsWithBearer (s : String) : Bool :=
  "Bearer ".data.isPrefixOf s.data

/-- JavaScript `h.split(' ')` over a character list: split at every space,
keeping empty groups (the result is never the empty list). -/
def splitOnSpaceChars : List Char → List (List Char)
  | [] => [[]]
  | c :: rest =>
    match splitOnSpaceChars rest with
    | [] => [[]]
    | g :: gs => if c = ' ' then [] :: g :: gs else (c :: g) :: gs

/-- JavaScript `h.split(' ')` on a string. -/
def splitOnSpace (s : String) : List String :=
  (splitOnSpaceChars s.data).map String.mk

/-- The error classes `jwt.verify` can throw, as discriminated by
`error.name` in the source's catch block. -/
inductive JwtLibError where
  | tokenExpiredError
  | jsonWebTokenError
  | otherError
  deriving DecidableEq

/-- The payload `jwt.verify` hands back after the unchecked cast to
`DecodedJwt`: either field may in fact be absent. -/
structure DecodedRaw where
  sessionId : Option String
  userId : Option Nat
  deriving DecidableEq

/-- `verifySessionToken` (src/unnamed/part_000 lines 100-134).  The
`jwt.verify` call is an oracle (`verifyResult`).  An empty or
whitespace-only token throws before verification.  The missing-field check
`!decoded.sessionId || !decoded.userId` uses JavaScript truthiness (absent,
empty string or `0` are falsy) and its `throw` is inside the same `try`, so
the surrounding catch re-maps it to `JWT verification failed` (its name is
`Error`, neither `TokenExpiredError` nor `JsonWebTokenError`). -/
def verifySessionToken (token : String)
    (verifyResult : Except JwtLibError DecodedRaw) : Except String DecodedRaw :=
  if token = "" ∨ isBlank token = true then
    Except.error "JWT token is required"
  else
    match verifyResult with
    | Except.error JwtLibError.tokenExpiredError =>
        Except.error "JWT token has expired"
    | Except.error JwtLibError.jsonWebTokenError =>
        Except.error "Invalid JWT token"
    | Except.error JwtLibError.otherError =>
        Except.error "JWT verification failed"
    | Except.ok d =>
        if d.sessionId.getD "" = "" ∨ d.userId.getD 0 = 0 then
          Except.error "JWT verification failed"
        else
          Except.ok d

/-! ## Authentication middleware (src/unnamed/part_001) -/

/-- The session record `verifySession` resolves, with the fields the
middleware copies onto `req.user` that the claims mention. -/
structure SessionInfo where
  userId : Nat
  username : String
  sessionId : String
  deriving DecidableEq

/-- A response the middleware sends: status plus the JSON fields it sets.
`code` is `none` exactly when the source's `res.json` object has no `code`
property. -/
structure AuthResponse where
  status : Nat
  error : Option String
  message : String
  code : Option String
  deriving DecidableEq

/-- Outcome of the middleware: either a response is sent, or `next()` runs
with the session's user attached to the request. -/
inductive AuthOutcome where
  | respond (r : AuthResponse)
  | authenticated (s : SessionInfo)
  deriving DecidableEq

/-- `authenticateUser` (src/unnamed/part_001 lines 9-78).  `jwtVerify` is
the `jwt.verify` oracle threaded into `verifySessionToken`; `sessionLookup`
is the `verifySession` session-store oracle.  A falsy `authorization` header
(absent or empty) is rejected first, then a header not starting with
`Bearer `, then an empty token (`header.split(' ')[1]`), then a
`verifySessionToken` throw, then a session-resolution throw. -/
def authenticateUser (authHeader : Option String)
    (jwtVerify : String → Except JwtLibError DecodedRaw)
    (sessionLookup : String → Except String SessionInfo) : AuthOutcome :=
  if authHeader.getD "" = "" then
    AuthOutcome.respond (AuthResponse.mk 401 (some "Unauthorized")
      "No authorization header provided" (some "NO_AUTHENTICATION_HEADER"))
  else
    let h := authHeader.getD ""
    if !startsWithBearer h then
      AuthOutcome.respond (AuthResponse.mk 401 (some "Unauthorized")
        "Invalid authorization header format" (some "INVALID_AUTHENTICATION_FORMAT"))
    else
      let token := (splitOnSpace h).getD 1 ""
      if token = "" then
        AuthOutcome.respond (AuthResponse.mk 401 (some "Unauthorized")
          "No authentication token provided" (some "NO_TOKEN_PROVIDED"))
      else
        match verifySessionToken token (jwtVerify token) with
        | Except.error _ =>
            AuthOutcome.respond (AuthResponse.mk 401 none
              "Invalid Token or session expired" none)
        | Except.ok d =>
            match sessionLookup (d.sessionId.getD "") with
            | Except.error _ =>
                AuthOutcome.respond (AuthResponse.mk 401 none
                  "Session not found or expired" none)
            | Except.ok s => AuthOutcome.authenticated s

/-- A stored job that has failed: no return value, a failure reason. -/
def failedStoredJob : StoredJob :=
  StoredJob.mk "42" "failed" 30 none (some "boom")

/-- A queue lookup knowing exactly the failed job `42`. -/
def c5Store : String → Option StoredJob :=
  fun jid => if jid = "42" then some failedStoredJob else none

/-! ## Pipeline lemmas -/

theorem cleanupCount_append (pid : String) (l1 l2 : List Event) :
    cleanupCount pid (l1 ++ l2) = cleanupCount pid l1 + cleanupCount pid l2 := by
  simp [cleanupCount, List.filter_append]

theorem progressValues_append (l1 l2 : List Event) :
    progressValues (l1 ++ l2) = progressValues l1 ++ progressValues l2 := by
  induction l1 with
  | nil => simp [progressValues]
  | cons a t ih => cases a <;> simp [progressValues, ih]

theorem processTry_error_cleanupCount (job : JobInput) (b : Behavior) (e : String)
    (h : (processTry job b).2 = Except.error e) :
    cleanupCount ("job-" ++ job.id) (processTry job b).1 = 0 := by
  obtain ⟨f1, f2, f3, f4, f5, f6, f7, f8, f9, f10, f11, f12, bn, cfl⟩ := b
  cases f1 with
  | error er => simp [processTry, bindE, cleanupCount, isCleanupFor]
  | ok v1 =>
    cases f2 with
    | error er => simp [processTry, bindE, cleanupCount, isCleanupFor]
    | ok v2 =>
      cases f3 with
      | error er => simp [processTry, bindE, cleanupCount, isCleanupFor]
      | ok v3 =>
        cases f4 with
        | error er => simp [processTry, bindE, cleanupCount, isCleanupFor]
        | ok v4 =>
          cases f5 with
          | error er => simp [processTry, bindE, cleanupCount, isCleanupFor]
          | ok v5 =>
            cases f6 with
            | error er => simp [processTry, bindE, cleanupCount, isCleanupFor]
            | ok v6 =>
              cases f7 with
              | error er => simp [processTry, bindE, cleanupCount, isCleanupFor]
              | ok v7 =>
                cases f8 with
                | error er => simp [processTry, bindE, cleanupCount, isCleanupFor]
                | ok v8 =>
                  cases f9 with
                  | error er => simp [processTry, bindE, cleanupCount, isCleanupFor]
                  | ok v9 =>
                    obtain ⟨ops, cmds, expl⟩ := v8
                    cases cmds with
                    | nil =>
                      cases f11 with
                      | error er => simp [processTry, bindE, cleanupCount, isCleanupFor]
                      | ok v11 =>
                        cases f12 with
                        | error er => simp [processTry, bindE, cleanupCount, isCleanupFor]
                        | ok v12 => simp [processTry, bindE] at h
                    | cons c cs =>
                      cases f10 with
                      | error er => simp [processTry, bindE, cleanupCount, isCleanupFor]
                      | ok v10 =>
                        cases f11 with
                        | error er => simp [processTry, bindE, cleanupCount, isCleanupFor]
                        | ok v11 =>
                          cases f12 with
                          | error er => simp [processTry, bindE, cleanupCount, isCleanupFor]
                          | ok v12 => simp [processTry, bindE] at h

theorem processTry_error_progress (job : JobInput) (b : Behavior) (e : String)
    (h : (processTry job b).2 = Except.error e) :
    progressValues (processTry job b).1 <+: [10, 20, 30, 40, 60, 70, 80, 90] ∧
    List.Chain' (fun a b => a ≤ b) (progressValues (processTry job b).1) := by
  obtain ⟨f1, f2, f3, f4, f5, f6, f7, f8, f9, f10, f11, f12, bn, cfl⟩ := b
  cases f1 with
  | error er =>
    simp [processTry, bindE, progressValues]
  | ok v1 =>
    cases f2 with
    | error er =>
      simp [processTry, bindE, progressValues]
    | ok v2 =>
      cases f3 with
      | error er =>
        simp [processTry, bindE, progressValues]
      | ok v3 =>
        cases f4 with
        | error er =>
          simp [processTry, bindE, progressValues]
        | ok v4 =>
          cases f5 with
          | error er =>
            simp [processTry, bindE, progressValues]
          | ok v5 =>
            cases f6 with
            | error er =>
              simp [processTry, bindE, progressValues]
            | ok v6 =>
              cases f7 with
              | error er =>
                simp [processTry, bindE, progressValues]
              | ok v7 =>
                cases f8 with
                | error er =>
                  simp [processTry, bindE, progressValues]
                | ok v8 =>
                  cases f9 with
                  | error er =>
                    simp [processTry, bindE, progressValues]
                  | ok v9 =>
                    obtain ⟨ops, cmds, expl⟩ := v8
                    cases cmds with
                    | nil =>
                      cases f11 with
                      | error er =>
                        simp [processTry, bindE, progressValues]
                      | ok v11 =>
                        cases f12 with
                        | error er =>
                          simp [processTry, bindE, progressValues]
                        | ok v12 => simp [processTry, bindE] at h
                    | cons c cs =>
                      cases f10 with
                      | error er =>
                        simp [processTry, bindE, progressValues]
                      | ok v10 =>
                        cases f11 with
                        | error er =>
                          simp [processTry, bindE, progressValues]
                        | ok v11 =>
                          cases f12 with
                          | error er =>
                            simp [processTry, bindE, progressValues]
                          | ok v12 => simp [processTry, bindE] at h

theorem processTry_ok_events (job : JobInput) (b : Behavior) (r : ProcessResult)
    (h : (processTry job b).2 = Except.ok r) :
    ∃ gen pr, b.generateCodeChanges = Except.ok gen ∧
      b.createPullRequest = Except.ok pr ∧
      processTry job b = (pipelineEvents job b gen,
        Except.ok (ProcessResult.mk true pr.url pr.number)) := by
  obtain ⟨f1, f2, f3, f4, f5, f6, f7, f8, f9, f10, f11, f12, bn, cfl⟩ := b
  cases f1 with
  | error er => simp [processTry, bindE] at h
  | ok v1 =>
    cases f2 with
    | error er => simp [processTry, bindE] at h
    | ok v2 =>
      cases f3 with
      | error er => simp [processTry, bindE] at h
      | ok v3 =>
        cases f4 with
        | error er => simp [processTry, bindE] at h
        | ok v4 =>
          cases f5 with
          | error er => simp [processTry, bindE] at h
          | ok v5 =>
            cases f6 with
            | error er => simp [processTry, bindE] at h
            | ok v6 =>
              cases f7 with
              | error er => simp [processTry, bindE] at h
              | ok v7 =>
                cases f8 with
                | error er => simp [processTry, bindE] at h
                | ok v8 =>
                  cases f9 with
                  | error er => simp [processTry, bindE] at h
                  | ok v9 =>
                    obtain ⟨ops, cmds, expl⟩ := v8
                    cases cmds with
                    | nil =>
                      cases f11 with
                      | error er => simp [processTry, bindE] at h
                      | ok v11 =>
                        cases f12 with
                        | error er => simp [processTry, bindE] at h
                        | ok v12 =>
                          refine ⟨Generation.mk ops List.nil expl, v12, rfl, rfl, ?_⟩
                          simp [processTry, bindE, pipelineEvents]
                    | cons c cs =>
                      cases f10 with
                      | error er => simp [processTry, bindE] at h
                      | ok v10 =>
                        cases f11 with
                        | error er => simp [processTry, bindE] at h
                        | ok v11 =>
                          cases f12 with
                          | error er => simp [processTry, bindE] at h
                          | ok v12 =>
                            refine ⟨Generation.mk ops (c :: cs) expl, v12, rfl, rfl, ?_⟩
                            simp [processTry, bindE, pipelineEvents]

theorem processTry_snd_flag (job : JobInput) (b : Behavior) (cf : Bool) :
    (processTry job { b with cleanupFails := cf }).2 = (processTry job b).2 := by
  obtain ⟨f1, f2, f3, f4, f5, f6, f7, f8, f9, f10, f11, f12, bn, cfl⟩ := b
  cases f1 with
  | error er => simp [processTry, bindE]
  | ok v1 =>
    cases f2 with
    | error er => simp [processTry, bindE]
    | ok v2 =>
      cases f3 with
      | error er => simp [processTry, bindE]
      | ok v3 =>
        cases f4 with
        | error er => simp [processTry, bindE]
        | ok v4 =>
          cases f5 with
          | error er => simp [processTry, bindE]
          | ok v5 =>
            cases f6 with
            | error er => simp [processTry, bindE]
            | ok v6 =>
              cases f7 with
              | error er => simp [processTry, bindE]
              | ok v7 =>
                cases f8 with
                | error er => simp [processTry, bindE]
                | ok v8 =>
                  cases f9 with
                  | error er => simp [processTry, bindE]
                  | ok v9 =>
                    obtain ⟨ops, cmds, expl⟩ := v8
                    cases cmds with
                    | nil =>
                      cases f11 with
                      | error er => simp [processTry, bindE]
                      | ok v11 =>
                        cases f12 with
                        | error er => simp [processTry, bindE]
                        | ok v12 => simp [processTry, bindE]
                    | cons c cs =>
                      cases f10 with
                      | error er => simp [processTry, bindE]
                      | ok v10 =>
                        cases f11 with
                        | error er => simp [processTry, bindE]
                        | ok v11 =>
                          cases f12 with
                          | error er => simp [processTry, bindE]
                          | ok v12 => simp [processTry, bindE]

theorem process_of_ok (job : JobInput) (b : Behavior) (r : ProcessResult)
    (h : (processTry job b).2 = Except.ok r) :
    process job b = processTry job b := by
  unfold process
  rcases hp : processTry job b with ⟨evs, rr⟩
  rw [hp] at h
  simp only at h
  subst h
  rfl

theorem process_of_error (job : JobInput) (b : Behavior) (e : String)
    (h : (processTry job b).2 = Except.error e) :
    process job b =
      ((processTry job b).1 ++ [Event.cleanup ("job-" ++ job.id) b.cleanupFails],
        Except.error e) := by
  unfold process
  rcases hp : processTry job b with ⟨evs, rr⟩
  rw [hp] at h
  simp only at h
  subst h
  rfl

/-! ## Claim theorems for the pipeline -/

/-- **C1** (counterexample): the claim as stated is false on the code.  When
the Clone stage (stage 3) throws, the job does end `failed` with the sandbox
released, but the final recorded progress is 30 — `updateProgress(30)` runs
at the start of the Clone stage, before `gitService.cloneRepository` — not
20, the value the spec's failure scenario predicts. -/
theorem c1_counterexample :
    cloneFailBehavior.cloneRepository = Except.error "clone failed" ∧
    (runJob sampleJob cloneFailBehavior).state = JobState.failed ∧
    (runJob sampleJob cloneFailBehavior).progress = 30 ∧
    specCheckpointBefore Stage.clone = 20 ∧
    ¬ (runJob sampleJob cloneFailBehavior).progress = 20 := by
  refine ⟨rfl, rfl, rfl, rfl, by decide⟩

/-- **C1** (amended): if the Clone stage (stage 3) of `JobProcessor.process`
throws, the job's final recorded state is `failed`, its final progress value
is 30 (the checkpoint written at the start of the failing Clone stage), its
failureReason is non-empty, and the sandbox for the job's project id was
released. -/
theorem c1_amended (job : JobInput) (b : Behavior) (fork : Fork) (sbx : String)
    (e : String) (h1 : b.ensureFork = Except.ok fork)
    (h2 : b.getOrCreateSandbox = Except.ok sbx)
    (h3 : b.cloneRepository = Except.error e) (he : e ≠ "") :
    (runJob job b).state = JobState.failed ∧
    (runJob job b).progress = 30 ∧
    (∃ reason, (runJob job b).failureReason = some reason ∧ reason ≠ "") ∧
    Event.cleanup ("job-" ++ job.id) b.cleanupFails ∈ (process job b).1 := by
  have hpt : processTry job b =
      ([Event.progress 10, Event.progress 20, Event.progress 30],
        Except.error e) := by
    simp [processTry, bindE, h1, h2, h3]
  have hp := process_of_error job b e (by rw [hpt])
  rw [hpt] at hp
  refine ⟨?_, ?_, ⟨e, ?_, he⟩, ?_⟩
  · simp [runJob, hp]
  · simp [runJob, hp, lastProgress, progressValues]
  · simp [runJob, hp]
  · rw [hp]
    simp

/-- Witness for `c1_amended` at a concrete job and behavior. -/
theorem c1_amended_witness :
    (runJob sampleJob cloneFailBehavior).state = JobState.failed ∧
    (runJob sampleJob cloneFailBehavior).progress = 30 ∧
    (∃ reason, (runJob sampleJob cloneFailBehavior).failureReason = some reason ∧
      reason ≠ "") ∧
    Event.cleanup ("job-" ++ sampleJob.id) cloneFailBehavior.cleanupFails ∈
      (process sampleJob cloneFailBehavior).1 :=
  c1_amended sampleJob cloneFailBehavior
    (Fork.mk "https://github.com/bot/widget" "bot") "sbx-1" "clone failed"
    rfl rfl rfl (by decide)

/-- **C2**: whenever a stage of `JobProcessor.process` throws an error `e`,
cleanup is invoked and the original `e` is the propagated error; the cleanup
call on the failure path returns normally even when the release internally
fails (spec-modelled, see `Behavior.cleanupFails`), so no cleanup failure
ever replaces or masks `e`: the outcome is the same for every value of the
cleanup-failure flag. -/
theorem c2_error_propagation (job : JobInput) (b : Behavior) (e : String)
    (h : (processTry job b).2 = Except.error e) :
    (process job b).2 = Except.error e ∧
    Event.cleanup ("job-" ++ job.id) b.cleanupFails ∈ (process job b).1 ∧
    (∀ cf, (process job { b with cleanupFails := cf }).2 = Except.error e) := by
  have hp := process_of_error job b e h
  refine ⟨?_, ?_, ?_⟩
  · rw [hp]
  · rw [hp]
    simp
  · intro cf
    have h2 : (processTry job { b with cleanupFails := cf }).2 = Except.error e := by
      rw [processTry_snd_flag job b cf]
      exact h
    rw [process_of_error job { b with cleanupFails := cf } e h2]

/-- Witness for `c2_error_propagation` at a concrete failing run. -/
theorem c2_witness :
    (process sampleJob cloneFailBehavior).2 = Except.error "clone failed" ∧
    Event.cleanup ("job-" ++ sampleJob.id) cloneFailBehavior.cleanupFails ∈
      (process sampleJob cloneFailBehavior).1 ∧
    (process sampleJob { cloneFailBehavior with cleanupFails := true }).2 =
      Except.error "clone failed" := by
  obtain ⟨a, m, c⟩ := c2_error_propagation sampleJob cloneFailBehavior "clone failed" rfl
  exact ⟨a, m, c true⟩

/-- **C3**: in every run of `JobProcessor.process` — success or failure at
any stage — the sandbox release for the job's project id `job-<id>` is
invoked exactly once. -/
theorem cleanupCount_cleanup_self (pid : String) (flag : Bool) :
    cleanupCount pid [Event.cleanup pid flag] = 1 := by
  simp [cleanupCount, isCleanupFor]

theorem c3_cleanup_exactly_once (job : JobInput) (b : Behavior) :
    cleanupCount ("job-" ++ job.id) (process job b).1 = 1 := by
  cases hr : (processTry job b).2 with
  | error e =>
    have h0 := processTry_error_cleanupCount job b e hr
    rw [process_of_error job b e hr]
    show cleanupCount ("job-" ++ job.id)
      ((processTry job b).1 ++
        [Event.cleanup ("job-" ++ job.id) b.cleanupFails]) = 1
    rw [cleanupCount_append, h0, cleanupCount_cleanup_self]
  | ok r =>
    obtain ⟨gen, pr, hg, hpr, heq⟩ := processTry_ok_events job b r hr
    simp [process_of_ok job b r hr, heq, pipelineEvents, cleanupCount, isCleanupFor]

/-- **C4** (counterexample): the claim's failure clause is false as stated.
In a run where the Clone stage throws, the final recorded progress is 30,
the checkpoint written at the start of the failing stage itself, not 20,
the last checkpoint of a stage *before* the failing stage. -/
theorem c4_counterexample :
    (process sampleJob cloneFailBehavior).2 = Except.error "clone failed" ∧
    specCheckpointBefore Stage.clone = 20 ∧
    lastProgress (process sampleJob cloneFailBehavior).1 = 30 ∧
    ¬ lastProgress (process sampleJob cloneFailBehavior).1 =
        specCheckpointBefore Stage.clone := by
  refine ⟨rfl, rfl, rfl, by decide⟩

/-- **C4** (amended): the recorded progress sequence of every run is
non-decreasing; a successful run records exactly 10, 20, 30, 40, 60, 70,
80, 90, 100 (so ends at 100); a failed run's sequence is a prefix of
10..90 — the last value is the checkpoint written at the start of the
failing stage (or before it, for stages with no checkpoint of their own),
never reset lower and never advanced further (the catch path records no
progress). -/
theorem c4_amended (job : JobInput) (b : Behavior) :
    List.Chain' (fun a b => a ≤ b) (progressValues (process job b).1) ∧
    (∀ r, (process job b).2 = Except.ok r →
      progressValues (process job b).1 = [10, 20, 30, 40, 60, 70, 80, 90, 100]) ∧
    (∀ e, (process job b).2 = Except.error e →
      progressValues (process job b).1 <+: [10, 20, 30, 40, 60, 70, 80, 90] ∧
      progressValues (process job b).1 = progressValues (processTry job b).1) := by
  cases hr : (processTry job b).2 with
  | ok r =>
    obtain ⟨gen, pr, hg, hpr, heq⟩ := processTry_ok_events job b r hr
    have hpo := process_of_ok job b r hr
    have hlist : progressValues (process job b).1 =
        [10, 20, 30, 40, 60, 70, 80, 90, 100] := by
      rw [hpo, heq]
      simp [pipelineEvents, progressValues]
    refine ⟨?_, fun r' h' => hlist, fun e h' => ?_⟩
    · rw [hlist]
      simp [List.chain'_cons]
    · rw [hpo, heq] at h'
      simp at h'
  | error e =>
    have hpe := process_of_error job b e hr
    obtain ⟨hpre, hch⟩ := processTry_error_progress job b e hr
    have hprog : progressValues (process job b).1 =
        progressValues (processTry job b).1 := by
      rw [hpe]
      simp [progressValues_append, progressValues]
    refine ⟨?_, fun r h' => ?_, fun e' h' => ⟨?_, hprog⟩⟩
    · rw [hprog]
      exact hch
    · rw [hpe] at h'
      simp at h'
    · rw [hprog]
      exact hpre

/-- Witness for `c4_amended`: a concrete successful run records exactly the
nine checkpoints ending at 100. -/
theorem c4_amended_witness :
    progressValues (process sampleJob okBehavior).1 =
      [10, 20, 30, 40, 60, 70, 80, 90, 100] :=
  (c4_amended sampleJob okBehavior).2.1
    (ProcessResult.mk true "https://github.com/acme/widget/pull/7" 7) rfl

/-- **C8**: every successful run commits with message exactly
`feat: <task>`, opens the pull request with title `task` and body
`generation.explanation`, and returns the PR's url and number (the roles of
the title and body arguments of `githubService.createPullRequest` are
modelled from the spec; the service itself is not under src/). -/
theorem c8_commit_and_pr (job : JobInput) (b : Behavior) (gen : Generation)
    (pr : PR) (r : ProcessResult) (hg : b.generateCodeChanges = Except.ok gen)
    (hpr : b.createPullRequest = Except.ok pr)
    (h : (process job b).2 = Except.ok r) :
    Event.commitAndPush b.branchName ("feat: " ++ job.data.task) ∈
      (process job b).1 ∧
    Event.createPullRequest job.data.task gen.explanation ∈ (process job b).1 ∧
    r.success = true ∧ r.prUrl = pr.url ∧ r.prNumber = pr.number := by
  have hok : (processTry job b).2 = Except.ok r := by
    cases hr : (processTry job b).2 with
    | ok r' =>
      rw [process_of_ok job b r' hr] at h
      rw [hr] at h
      exact h
    | error e =>
      rw [process_of_error job b e hr] at h
      simp at h
  obtain ⟨gen', pr', hg', hpr', heq⟩ := processTry_ok_events job b r hok
  rw [hg] at hg'
  rw [hpr] at hpr'
  obtain rfl := Except.ok.inj hg'
  obtain rfl := Except.ok.inj hpr'
  have hr2 : r = ProcessResult.mk true pr.url pr.number := by
    have h2 := hok
    rw [heq] at h2
    exact (Except.ok.inj h2).symm
  subst hr2
  rw [process_of_ok job b _ hok, heq]
  refine ⟨?_, ?_, rfl, rfl, rfl⟩
  · simp [pipelineEvents]
  · simp [pipelineEvents]

/-- Witness for `c8_commit_and_pr` at a concrete successful run. -/
theorem c8_witness :
    Event.commitAndPush okBehavior.branchName
        ("feat: " ++ sampleJob.data.task) ∈ (process sampleJob okBehavior).1 ∧
    Event.createPullRequest sampleJob.data.task "adds a LICENSE file" ∈
      (process sampleJob okBehavior).1 ∧
    (ProcessResult.mk true "https://github.com/acme/widget/pull/7" 7).success = true ∧
    (ProcessResult.mk true "https://github.com/acme/widget/pull/7" 7).prUrl =
      (PR.mk "https://github.com/acme/widget/pull/7" 7).url ∧
    (ProcessResult.mk true "https://github.com/acme/widget/pull/7" 7).prNumber =
      (PR.mk "https://github.com/acme/widget/pull/7" 7).number :=
  c8_commit_and_pr sampleJob okBehavior
    (Generation.mk ["create LICENSE"] [] "adds a LICENSE file")
    (PR.mk "https://github.com/acme/widget/pull/7" 7)
    (ProcessResult.mk true "https://github.com/acme/widget/pull/7" 7)
    rfl rfl rfl

/-! ## Claim theorems for the HTTP, webhook and session layers -/

/-- **C5** (counterexample): the claim as stated is false on the code.  For
a stored job that failed with `failedReason = "boom"`, the status route
answers `200` with body keys `jobId`, `state`, `progress` only — the
handler never includes `failedReason`. -/
theorem c5_counterexample :
    failedStoredJob.failedReason = some "boom" ∧
    (statusHandler c5Store "42").status = 200 ∧
    List.map Prod.fst (statusHandler c5Store "42").body =
      ["jobId", "state", "progress"] ∧
    ¬ ∃ v, ("failedReason", v) ∈ (statusHandler c5Store "42").body := by
  refine ⟨rfl, rfl, rfl, ?_⟩
  rintro ⟨v, hv⟩
  simp [statusHandler, c5Store, failedStoredJob] at hv

/-- **C5** (amended): `GET /api/status/:jobId` answers `404` when no job
with that id exists; otherwise it answers `200` with a body containing
`jobId`, `state`, `progress` and — when present on the job — `result`
(the job's return value); `failedReason` is never included. -/
theorem c5_amended (getJob : String → Option StoredJob) (jobId : String) :
    (getJob jobId = none →
      statusHandler getJob jobId =
        HttpResponse.mk 404 [("error", JVal.s "Job not found")]) ∧
    (∀ j, getJob jobId = some j →
      (statusHandler getJob jobId).status = 200 ∧
      ("jobId", JVal.s j.id) ∈ (statusHandler getJob jobId).body ∧
      ("state", JVal.s j.state) ∈ (statusHandler getJob jobId).body ∧
      ("progress", JVal.n j.progress) ∈ (statusHandler getJob jobId).body ∧
      (∀ r, j.returnvalue = some r →
        ("result", JVal.res r) ∈ (statusHandler getJob jobId).body) ∧
      (∀ v, ("failedReason", v) ∉ (statusHandler getJob jobId).body)) := by
  refine ⟨fun hn => ?_, fun j hj => ?_⟩
  · simp [statusHandler, hn]
  · refine ⟨?_, ?_, ?_, ?_, fun r hr => ?_, fun v hv => ?_⟩
    · simp [statusHandler, hj]
    · simp [statusHandler, hj]
    · simp [statusHandler, hj]
    · simp [statusHandler, hj]
    · simp [statusHandler, hj, hr]
    · cases hrv : j.returnvalue with
      | none => simp [statusHandler, hj, hrv] at hv
      | some r => simp [statusHandler, hj, hrv] at hv

/-- Witness for `c5_amended` at a concrete store and job id. -/
theorem c5_amended_witness :
    (statusHandler c5Store "missing").status = 404 ∧
    ("state", JVal.s failedStoredJob.state) ∈ (statusHandler c5Store "42").body ∧
    (∀ v, ("failedReason", v) ∉ (statusHandler c5Store "42").body) := by
  refine ⟨?_, ?_, ?_⟩
  · rw [(c5_amended c5Store "missing").1 (by decide)]
  · exact ((c5_amended c5Store "42").2 failedStoredJob rfl).2.2.1
  · exact ((c5_amended c5Store "42").2 failedStoredJob rfl).2.2.2.2.2

/-- **C6**: `POST /api/chat` rejects a missing (absent or empty, i.e. falsy)
`repoUrl` or `task` with `400` and leaves the queue unchanged; when both are
present and non-empty it enqueues the job data and answers `202` with
`jobId` and `statusUrl`. -/
theorem c6_chat_validation (body : ChatRequestBody) (queue : List JobData)
    (newId : String) :
    ((body.repoUrl = none ∨ body.repoUrl = some "" ∨ body.task = none ∨
        body.task = some "") →
      (chatHandler body queue newId).1.status = 400 ∧
      (chatHandler body queue newId).2 = queue) ∧
    (∀ r t, body.repoUrl = some r → r ≠ "" → body.task = some t → t ≠ "" →
      (chatHandler body queue newId).1.status = 202 ∧
      (chatHandler body queue newId).1.jobId = some newId ∧
      (chatHandler body queue newId).1.statusUrl =
        some ("/api/status/" ++ newId) ∧
      (chatHandler body queue newId).2 = queue ++ [JobData.mk r t]) := by
  refine ⟨fun h => ?_, fun r t hr hrne ht htne => ?_⟩
  · have hc : (!truthy body.repoUrl || !truthy body.task) = true := by
      rcases h with h | h | h | h <;> simp [truthy, h]
    simp [chatHandler, hc]
  · have h1 : truthy (some r) = true := by simp [truthy, hrne]
    have h2 : truthy (some t) = true := by simp [truthy, htne]
    simp [chatHandler, hr, ht, h1, h2]

/-- Witness for `c6_chat_validation` at a concrete request. -/
theorem c6_witness :
    (chatHandler
        (ChatRequestBody.mk (some "https://github.com/acme/widget")
          (some "add a LICENSE file")) [] "1").1.status = 202 ∧
    (chatHandler
        (ChatRequestBody.mk (some "https://github.com/acme/widget")
          (some "add a LICENSE file")) [] "1").1.jobId = some "1" ∧
    (chatHandler
        (ChatRequestBody.mk (some "https://github.com/acme/widget")
          (some "add a LICENSE file")) [] "1").1.statusUrl =
      some ("/api/status/" ++ "1") ∧
    (chatHandler
        (ChatRequestBody.mk (some "https://github.com/acme/widget")
          (some "add a LICENSE file")) [] "1").2 =
      [] ++ [JobData.mk "https://github.com/acme/widget" "add a LICENSE file"] :=
  (c6_chat_validation
      (ChatRequestBody.mk (some "https://github.com/acme/widget")
        (some "add a LICENSE file")) [] "1").2
    "https://github.com/acme/widget" "add a LICENSE file" rfl (by decide) rfl
    (by decide)

/-- **C7**: webhook signature verification is a total Boolean function that
answers `false` for an absent (falsy) signature and for any rejection of the
underlying comparison, and a missing (falsy) webhook secret makes the GitHub
App module throw at startup instead of surfacing at verification time. -/
theorem c7_signature_safety (payload signature : String)
    (webhooksVerify : String → String → Except String Bool)
    (appId privateKey secret : Option String) :
    (signature = "" →
      verifyWebhookSignature payload signature webhooksVerify = false) ∧
    (∀ e, webhooksVerify payload signature = Except.error e →
      verifyWebhookSignature payload signature webhooksVerify = false) ∧
    ((secret = none ∨ secret = some "") →
      githubAppStartup appId privateKey secret =
        Except.error "Missing GitHub App credentials") := by
  refine ⟨fun hs => ?_, fun e he => ?_, fun hsec => ?_⟩
  · simp [verifyWebhookSignature, hs]
  · by_cases hs2 : signature == ""
    · simp [verifyWebhookSignature, hs2]
    · simp [verifyWebhookSignature, hs2, he]
  · have hf : truthy secret = false := by
      rcases hsec with h | h <;> simp [truthy, h]
    simp [githubAppStartup, hf]

/-- Witness for `c7_signature_safety` at concrete inputs. -/
theorem c7_witness :
    verifyWebhookSignature "payload" "" (fun _ _ => Except.error "bad") = false ∧
    verifyWebhookSignature "payload" "sha256=zz"
      (fun _ _ => Except.error "bad") = false ∧
    githubAppStartup (some "1") (some "key") none =
      Except.error "Missing GitHub App credentials" :=
  ⟨(c7_signature_safety "payload" "" (fun _ _ => Except.error "bad")
      (some "1") (some "key") none).1 rfl,
   (c7_signature_safety "payload" "sha256=zz" (fun _ _ => Except.error "bad")
      (some "1") (some "key") none).2.1 "bad" rfl,
   (c7_signature_safety "payload" "x" (fun _ _ => Except.error "bad")
      (some "1") (some "key") none).2.2 (Or.inl rfl)⟩

/-- **C9** (counterexample): the claim as stated is false on the code.  A
request whose Bearer token fails verification receives `401`, but the body
is `{ message: "Invalid Token or session expired" }` with no `code`
property at all. -/
theorem c9_counterexample :
    authenticateUser (some "Bearer badtoken")
        (fun _ => Except.error JwtLibError.jsonWebTokenError)
        (fun _ => Except.ok (SessionInfo.mk 1 "u" "s")) =
      AuthOutcome.respond
        (AuthResponse.mk 401 none "Invalid Token or session expired" none) ∧
    (AuthResponse.mk 401 none "Invalid Token or session expired" none).code =
      none := by
  exact ⟨rfl, rfl⟩

/-- **C9** (amended): a missing/empty Authorization header, a non-Bearer
scheme and an empty token yield `401` with codes `NO_AUTHENTICATION_HEADER`,
`INVALID_AUTHENTICATION_FORMAT` and `NO_TOKEN_PROVIDED` respectively; a
failed token verification or a failed session resolution yields `401` whose
body carries only a distinguishing `message` and no `code` field. -/
theorem c9_amended (authHeader : Option String)
    (jwtVerify : String → Except JwtLibError DecodedRaw)
    (sessionLookup : String → Except String SessionInfo) :
    (authHeader.getD "" = "" →
      authenticateUser authHeader jwtVerify sessionLookup =
        AuthOutcome.respond (AuthResponse.mk 401 (some "Unauthorized")
          "No authorization header provided" (some "NO_AUTHENTICATION_HEADER"))) ∧
    (∀ h, authHeader = some h → h ≠ "" → startsWithBearer h = false →
      authenticateUser authHeader jwtVerify sessionLookup =
        AuthOutcome.respond (AuthResponse.mk 401 (some "Unauthorized")
          "Invalid authorization header format"
          (some "INVALID_AUTHENTICATION_FORMAT"))) ∧
    (∀ h, authHeader = some h → startsWithBearer h = true →
      (splitOnSpace h).getD 1 "" = "" →
      authenticateUser authHeader jwtVerify sessionLookup =
        AuthOutcome.respond (AuthResponse.mk 401 (some "Unauthorized")
          "No authentication token provided" (some "NO_TOKEN_PROVIDED"))) ∧
    (∀ h tok, authHeader = some h → startsWithBearer h = true →
      (splitOnSpace h).getD 1 "" = tok → tok ≠ "" →
      (∀ msg, verifySessionToken tok (jwtVerify tok) = Except.error msg →
        authenticateUser authHeader jwtVerify sessionLookup =
          AuthOutcome.respond (AuthResponse.mk 401 none
            "Invalid Token or session expired" none))) ∧
    (∀ h tok d, authHeader = some h → startsWithBearer h = true →
      (splitOnSpace h).getD 1 "" = tok → tok ≠ "" →
      verifySessionToken tok (jwtVerify tok) = Except.ok d →
      (∀ msg, sessionLookup (d.sessionId.getD "") = Except.error msg →
        authenticateUser authHeader jwtVerify sessionLookup =
          AuthOutcome.respond (AuthResponse.mk 401 none
            "Session not found or expired" none))) := by
  have hne_of_starts : ∀ h : String, startsWithBearer h = true → h ≠ "" := by
    intro h hst h0
    rw [h0] at hst
    exact absurd hst (by decide)
  refine ⟨fun h0 => ?_, fun h ha hne hst => ?_, fun h ha hst htok => ?_,
    fun h tok ha hst htok hne msg hver => ?_,
    fun h tok d ha hst htok hne hd msg hsess => ?_⟩
  · simp [authenticateUser, h0]
  · subst ha
    simp [authenticateUser, hne, hst]
  · subst ha
    have hne := hne_of_starts h hst
    simp only [List.getD_eq_getElem?_getD] at htok
    simp [authenticateUser, hne, hst, htok]
  · subst ha
    have hne2 := hne_of_starts h hst
    simp only [List.getD_eq_getElem?_getD] at htok
    simp [authenticateUser, hne2, hst, htok, hne, hver]
  · subst ha
    have hne2 := hne_of_starts h hst
    simp only [List.getD_eq_getElem?_getD] at htok
    simp [authenticateUser, hne2, hst, htok, hne, hd, hsess]

/-- Witness for `c9_amended`: a concrete request with no Authorization
header receives the `NO_AUTHENTICATION_HEADER` response. -/
theorem c9_amended_witness :
    authenticateUser none (fun _ => Except.error JwtLibError.otherError)
        (fun _ => Except.error "no session") =
      AuthOutcome.respond (AuthResponse.mk 401 (some "Unauthorized")
        "No authorization header provided" (some "NO_AUTHENTICATION_HEADER")) :=
  (c9_amended none (fun _ => Except.error JwtLibError.otherError)
    (fun _ => Except.error "no session")).1 rfl

/-- **C10**: `verifySessionToken` throws on every empty or whitespace-only
token, throws when the verified payload lacks `sessionId` or `userId`, and
never returns a payload in which either field is absent. -/
theorem c10_verify_token (token : String)
    (verifyResult : Except JwtLibError DecodedRaw) :
    (isBlank token = true →
      ∃ msg, verifySessionToken token verifyResult = Except.error msg) ∧
    (∀ d, verifyResult = Except.ok d →
      (d.sessionId = none ∨ d.userId = none) →
      ∃ msg, verifySessionToken token verifyResult = Except.error msg) ∧
    (∀ d, verifySessionToken token verifyResult = Except.ok d →
      d.sessionId ≠ none ∧ d.userId ≠ none) := by
  refine ⟨fun ht => ?_, fun d hd hmiss => ?_, fun d hd => ?_⟩
  · exact ⟨"JWT token is required", by simp [verifySessionToken, ht]⟩
  · subst hd
    by_cases h0 : token = "" ∨ isBlank token = true
    · exact ⟨"JWT token is required", by simp [verifySessionToken, h0]⟩
    · refine ⟨"JWT verification failed", ?_⟩
      rcases hmiss with h | h <;> simp [verifySessionToken, h0, h]
  · by_cases h0 : token = "" ∨ isBlank token = true
    · simp [verifySessionToken, h0] at hd
    · cases verifyResult with
      | error e => cases e <;> simp [verifySessionToken, h0] at hd
      | ok d0 =>
        by_cases h1 : d0.sessionId.getD "" = "" ∨ d0.userId.getD 0 = 0
        · simp [verifySessionToken, h0, h1] at hd
        · simp [verifySessionToken, h0, h1] at hd
          subst hd
          obtain ⟨ha, hb⟩ := not_or.mp h1
          constructor
          · intro hn
            exact ha (by simp [hn])
          · intro hn
            exact hb (by simp [hn])

/-- Witness for `c10_verify_token` at concrete tokens and payloads. -/
theorem c10_witness :
    (∃ msg, verifySessionToken " "
        (Except.ok (DecodedRaw.mk (some "sess") (some 1))) =
      Except.error msg) ∧
    (∃ msg, verifySessionToken "tok"
        (Except.ok (DecodedRaw.mk none (some 1))) = Except.error msg) ∧
    ((DecodedRaw.mk (some "sess") (some 1)).sessionId ≠ none ∧
      (DecodedRaw.mk (some "sess") (some 1)).userId ≠ none) :=
  ⟨(c10_verify_token " "
      (Except.ok (DecodedRaw.mk (some "sess") (some 1)))).1 (by decide),
   (c10_verify_token "tok" (Except.ok (DecodedRaw.mk none (some 1)))).2.1
      (DecodedRaw.mk none (some 1)) rfl (Or.inl rfl),
   (c10_verify_token "tok"
      (Except.ok (DecodedRaw.mk (some "sess") (some 1)))).2.2
      (DecodedRaw.mk (some "sess") (some 1)) rfl⟩

end Spec2Proof
